import Mathlib

/-!
Shallow embedding of `src/main.cc` — the batch LP solve orchestration harness
(`unified_lp_solver`).  The numerical solving backends (`ParallelSolver` from
`paraSim_threadp`, `SerialSolver` from `paraSim`) are external collaborators
whose code is not part of this repository's sources; following the design they
are modelled as function parameters (`solve_batch`, `solve`).  Doubles that
only accumulate (iterations, times) are modelled by rationals; the report's
floating-point divisions are modelled at the finiteness level by `FVal`.
Wall-clock measurements are ambient inputs, passed as parameters.
-/

namespace UnifiedLpSolver

/-- The problem record of `main.cc` (`LP_Problem`, a tuple of the eight
fields read from the input file). -/
structure LP_Problem where
  c : List ℚ
  A : List (List ℚ)
  b : List ℚ
  Aeq : List (List ℚ)
  beq : List ℚ
  lb : List ℚ
  ub : List ℚ
  is_maximization : Bool
deriving Repr

/-- One backend result for one problem.  `exitflag`, `iterations` and
`total_time_ms` are the fields the harness reads; `data_string` is the text
block produced by the backend's `get_data_string()` serialization method,
opaque to the harness. -/
structure LP_solution where
  exitflag : Int
  iterations : ℚ
  total_time_ms : ℚ
  data_string : String
deriving Repr

/-- The backend's serialization method: renders problem and solution as a
self-describing text block (opaque to the harness). -/
def LP_solution.get_data_string (r : LP_solution) : String :=
  r.data_string

/-- The `struct SolverStatistics` of `main.cc`, with its member default values. -/
structure SolverStatistics where
  total_problems : ℕ := 0
  success_count : ℕ := 0
  fail_count : ℕ := 0
  total_iterations : ℚ := 0
  total_solve_time_ms : ℚ := 0
  wall_clock_time_ms : ℚ := 0
deriving Repr

/-- The output side of the file system: text content and openability of each
path.  `content p` is what the file at path `p` holds; `openable p` says
whether `std::ofstream(p, std::ios::app)` succeeds. -/
structure OutputFS where
  content : String → String
  openable : String → Bool

/-- Appending text to the file at `path` (the effect of writes through an
`std::ofstream` opened with `std::ios::app`, flushed at close). -/
def OutputFS.append_to (fs : OutputFS) (path s : String) : OutputFS :=
  { fs with content := fun p => if p = path then fs.content p ++ s else fs.content p }

/-- Outcome of a batch-solving call: normal completion, or process
termination through a failed `assert`. -/
inductive RunResult (α : Type) where
  | ok (value : α)
  | assert_failed
deriving Repr

/-- The body of the per-result loop shared verbatim by `solve_parallel`
(lines 103-112) and `solve_serial` (lines 140-149): conditional counter
increment and conditional write, then unconditional accumulation of
`iterations` and `total_time_ms`.  Returns the updated statistics and the
text written to the output file by this iteration. -/
def process_result (stats : SolverStatistics) (result : LP_solution) :
    SolverStatistics × String :=
  let step :=
    if result.exitflag = 1 then
      ({ stats with success_count := stats.success_count + 1 }, result.get_data_string)
    else
      ({ stats with fail_count := stats.fail_count + 1 }, "")
  ({ step.1 with
      total_iterations := step.1.total_iterations + result.iterations,
      total_solve_time_ms := step.1.total_solve_time_ms + result.total_time_ms },
   step.2)

/-- The full per-result loop of both backends: folds `process_result` over the
result sequence in order, concatenating everything written to the file. -/
def process_results (stats : SolverStatistics) :
    List LP_solution → SolverStatistics × String
  | [] => (stats, "")
  | r :: rs =>
      let first := process_result stats r
      let rest := process_results first.1 rs
      (rest.1, first.2 ++ rest.2)

/-- Function `solve_parallel` of `main.cc`: records `total_problems` from the input
count, delegates the whole batch to the concurrent backend's `solve_batch`,
records the measured wall-clock duration `wall_ms`, opens
`answer_parallel.txt` for append (`assert`ing that it opened), and folds the
results through the aggregation/persistence loop. -/
def solve_parallel (solve_batch : List LP_Problem → List LP_solution)
    (wall_ms : ℚ) (problems : List LP_Problem) (fs : OutputFS) :
    RunResult (SolverStatistics × OutputFS) :=
  let stats : SolverStatistics := { total_problems := problems.length }
  let results := solve_batch problems
  let stats := { stats with wall_clock_time_ms := wall_ms }
  let file_path := "answer_parallel.txt"
  if fs.openable file_path then
    let processed := process_results stats results
    .ok (processed.1, fs.append_to file_path processed.2)
  else
    .assert_failed

/-- Function `solve_serial` of `main.cc`: records `total_problems`, invokes the
sequential backend's single-problem `solve` once per problem in input order,
records the wall-clock duration, opens `answer_serial.txt` for append
(`assert`ing that it opened), and folds the results through the same loop. -/
def solve_serial (solve : LP_Problem → LP_solution)
    (wall_ms : ℚ) (problems : List LP_Problem) (fs : OutputFS) :
    RunResult (SolverStatistics × OutputFS) :=
  let stats : SolverStatistics := { total_problems := problems.length }
  let results := problems.map solve
  let stats := { stats with wall_clock_time_ms := wall_ms }
  let file_path := "answer_serial.txt"
  if fs.openable file_path then
    let processed := process_results stats results
    .ok (processed.1, fs.append_to file_path processed.2)
  else
    .assert_failed

/-- The concatenation of the serialized blocks of exactly the successful
(`exitflag == 1`) solutions, in order — what a complete run appends to the
output artifact. -/
def success_blocks (rs : List LP_solution) : String :=
  String.join ((rs.filter (fun r => r.exitflag == 1)).map LP_solution.get_data_string)

/-- IEEE-754 double values, observed at the finiteness level: a finite value
(held exactly as a rational), the two infinities, or NaN.  `print_statistics`
performs its divisions in this domain. -/
inductive FVal where
  | finite (q : ℚ)
  | posInf
  | negInf
  | nan
deriving Repr, DecidableEq

/-- Whether a floating-point value is finite. -/
def FVal.isFinite : FVal → Bool
  | .finite _ => true
  | _ => false

/-- IEEE-754 division: total, never traps.  Division of a nonzero finite
value by zero yields a signed infinity, `0.0 / 0.0` yields NaN. -/
def fdiv : FVal → FVal → FVal
  | .finite a, .finite b =>
      if b = 0 then
        if a = 0 then .nan
        else if a > 0 then .posInf
        else .negInf
      else .finite (a / b)
  | .nan, _ => .nan
  | _, .nan => .nan
  | .posInf, .posInf => .nan
  | .posInf, .negInf => .nan
  | .negInf, .posInf => .nan
  | .negInf, .negInf => .nan
  | .posInf, .finite _ => .posInf
  | .negInf, .finite _ => .negInf
  | .finite _, .posInf => .finite 0
  | .finite _, .negInf => .finite 0

/-- Rendering of a floating-point value by the output stream. -/
def FVal.render : FVal → String
  | .finite q => toString q
  | .posInf => "inf"
  | .negInf => "-inf"
  | .nan => "nan"

/-- The parallel speedup reported by `print_statistics`:
`total_solve_time_ms / wall_clock_time_ms` in double arithmetic. -/
def speedup_ratio (stats : SolverStatistics) : FVal :=
  fdiv (.finite stats.total_solve_time_ms) (.finite stats.wall_clock_time_ms)

/-- The average time per problem reported by `print_statistics`:
`wall_clock_time_ms / total_problems` in double arithmetic. -/
def avg_time_per_problem (stats : SolverStatistics) : FVal :=
  fdiv (.finite stats.wall_clock_time_ms) (.finite (stats.total_problems : ℚ))

/-- Function `print_statistics` of `main.cc`, modelled as the text it sends to
`std::cout`: mode line, counters, timing, the speedup ratio (parallel mode
only) and the average time per problem. -/
def print_statistics (stats : SolverStatistics) (parallel_mode : Bool)
    (thread_count : Int) : String :=
  "\n============ 求解汇总 ============\n"
  ++ ((if parallel_mode then
        "模式: 并行 (线程数: " ++ toString thread_count ++ ")\n"
      else
        "模式: 串行\n")
  ++ ("求解问题总数: " ++ toString stats.total_problems ++ "\n"
      ++ "成功解决的问题数: " ++ toString stats.success_count ++ "\n"
      ++ "失败的问题数: " ++ toString stats.fail_count ++ "\n"
      ++ "总迭代次数: " ++ toString stats.total_iterations ++ "\n"
      ++ "总求解时间(各问题累加): " ++ toString stats.total_solve_time_ms ++ " 毫秒\n"
      ++ "实际总耗时: " ++ toString stats.wall_clock_time_ms ++ " 毫秒\n")
  ++ ((if parallel_mode then
        "并行加速比: " ++ (speedup_ratio stats).render ++ "x\n"
        ++ "答案与题目详情见answer_parallel.txt\n"
        ++ "====================================\n"
      else
        "答案与题目详情见answer_serial.txt\n"
        ++ "====================================\n")
  ++ ("平均每个问题耗时: " ++ (avg_time_per_problem stats).render ++ " 毫秒\n"
      ++ "====================================\n")))

/-- The usage text of `print_help` in `main.cc`. -/
def help_text : String :=
  "用法:\n"
  ++ "  unified_lp_solver [选项]\n\n"
  ++ "选项:\n"
  ++ "  --parallel      使用并行模式 (默认)\n"
  ++ "  --serial        使用串行模式\n"
  ++ "  --threads N     设置并行线程数 (默认: 4)\n"
  ++ "  --file FILE     指定输入文件 (默认: problems.json)\n"
  ++ "  --help          显示帮助信息\n"

/-- Reads the maximal leading digit run as a natural number. -/
def read_digits : List Char → ℕ → ℕ
  | [], acc => acc
  | ch :: cs, acc =>
      if ch.isDigit then read_digits cs (10 * acc + (ch.toNat - 48)) else acc

/-- Parses a digit run; fails when the first character is not a digit. -/
def parse_digits : List Char → Option ℕ
  | [] => none
  | ch :: cs => if ch.isDigit then some (read_digits (ch :: cs) 0) else none

/-- Outcome of a `std::stoi` call: a converted value, the
`std::invalid_argument` exception (no conversion could be performed), or the
`std::out_of_range` exception (converted value outside the range of `int`). -/
inductive StoiResult where
  | ok (n : Int)
  | invalid
  | out_of_range
deriving Repr, DecidableEq

/-- The C++ standard `std::stoi`, modelled from its documented behaviour:
skip leading whitespace (C-locale `isspace`: space, `\t`, `\n`, `\v`
(`\x0b`), `\f` (`\x0c`), `\r`), accept an optional sign, then convert the
longest run of decimal digits; with no digits the conversion fails with
`std::invalid_argument`, and a converted value outside the range of `int`
(32-bit two's complement on this platform) fails with `std::out_of_range`. -/
def stoi (s : String) : StoiResult :=
  let cs := s.toList.dropWhile (fun ch =>
    ch = ' ' ∨ ch = '\t' ∨ ch = '\n' ∨ ch = '\x0b' ∨ ch = '\x0c' ∨ ch = '\r')
  let signed : Option Int :=
    match cs with
    | '-' :: rest => (parse_digits rest).map (fun n => -(n : Int))
    | '+' :: rest => (parse_digits rest).map (fun n => (n : Int))
    | rest => (parse_digits rest).map (fun n => (n : Int))
  match signed with
  | none => .invalid
  | some n => if n < -(2 ^ 31) ∨ 2 ^ 31 - 1 < n then .out_of_range else .ok n

/-- Structured values of the input file (JSON). -/
inductive Json where
  | null
  | bool (b : Bool)
  | num (q : ℚ)
  | str (s : String)
  | arr (elems : List Json)
  | obj (fields : List (String × Json))
deriving Repr

/-- Key lookup in a record's field list (first match). -/
def lookup_field : List (String × Json) → String → Option Json
  | [], _ => none
  | (k, v) :: rest, key => if k = key then some v else lookup_field rest key

/-- Field access on a record; `none` when the value is not a record or the
key is absent. -/
def Json.get (j : Json) (key : String) : Option Json :=
  match j with
  | .obj fields => lookup_field fields key
  | _ => none

/-- Conversion of a structured value to a number. -/
def as_num : Json → Option ℚ
  | .num q => some q
  | _ => none

/-- Conversion of a structured value to an array of numbers. -/
def as_num_list : Json → Option (List ℚ)
  | .arr xs => xs.mapM as_num
  | _ => none

/-- Conversion of a structured value to an array of arrays of numbers. -/
def as_matrix : Json → Option (List (List ℚ))
  | .arr rows => rows.mapM as_num_list
  | _ => none

/-- Conversion of a structured value to a boolean. -/
def as_bool : Json → Option Bool
  | .bool b => some b
  | _ => none

/-- The Loader's failure modes: `ioError` when the input file cannot be
opened, `parseError` when its content is not well-formed or a record lacks a
mandatory field.  Either is thrown as a C++ exception and caught by `main`'s
top-level handler. -/
inductive LoadErr where
  | ioError (msg : String)
  | parseError (msg : String)
deriving Repr, DecidableEq

/-- Whether a Loader failure is a parse error (as opposed to an I/O error). -/
def LoadErr.isParse : LoadErr → Bool
  | .parseError _ => true
  | _ => false

/-- The message `main` prints for a Loader failure (`e.what()`). -/
def LoadErr.describe : LoadErr → String
  | .ioError msg => msg
  | .parseError msg => msg

/-- Modelled from the spec: the JSON library's access to a mandatory
array-of-numbers field (`problem_json["c"]`, `problem_json["b"]` in
`json.hpp`, which is not under `src/`) — a record lacking the key, or
holding a value of the wrong shape, raises a parse error. -/
def get_mandatory_num_list (r : Json) (key : String) : Except LoadErr (List ℚ) :=
  match r.get key with
  | none => .error (.parseError ("missing mandatory field: " ++ key))
  | some v =>
      match as_num_list v with
      | none => .error (.parseError ("type error at field: " ++ key))
      | some l => .ok l

/-- Modelled from the spec: access to the mandatory matrix field
(`problem_json["A"]`), as for `get_mandatory_num_list`. -/
def get_mandatory_matrix (r : Json) (key : String) : Except LoadErr (List (List ℚ)) :=
  match r.get key with
  | none => .error (.parseError ("missing mandatory field: " ++ key))
  | some v =>
      match as_matrix v with
      | none => .error (.parseError ("type error at field: " ++ key))
      | some m => .ok m

/-- Modelled from the spec: `problem_json.value(key, default)` for an
array-of-numbers field — the default when the key is absent, a parse error
when it is present with the wrong shape. -/
def get_optional_num_list (r : Json) (key : String) : Except LoadErr (List ℚ) :=
  match r.get key with
  | none => .ok []
  | some v =>
      match as_num_list v with
      | none => .error (.parseError ("type error at field: " ++ key))
      | some l => .ok l

/-- Modelled from the spec: `problem_json.value(key, default)` for a matrix
field. -/
def get_optional_matrix (r : Json) (key : String) : Except LoadErr (List (List ℚ)) :=
  match r.get key with
  | none => .ok []
  | some v =>
      match as_matrix v with
      | none => .error (.parseError ("type error at field: " ++ key))
      | some m => .ok m

/-- Modelled from the spec: `problem_json.value("ismaximization", false)`. -/
def get_optional_bool (r : Json) (key : String) : Except LoadErr Bool :=
  match r.get key with
  | none => .ok false
  | some v =>
      match as_bool v with
      | none => .error (.parseError ("type error at field: " ++ key))
      | some b => .ok b

/-- The loop body of `read_problems_from_file` for one record: mandatory
`c`, `A`, `b`, then optional `Aeq`, `beq`, `lb`, `ub`, `ismaximization`
with their defaults. -/
def parse_record (r : Json) : Except LoadErr LP_Problem := do
  let c ← get_mandatory_num_list r "c"
  let A ← get_mandatory_matrix r "A"
  let b ← get_mandatory_num_list r "b"
  let Aeq ← get_optional_matrix r "Aeq"
  let beq ← get_optional_num_list r "beq"
  let lb ← get_optional_num_list r "lb"
  let ub ← get_optional_num_list r "ub"
  let is_maximization ← get_optional_bool r "ismaximization"
  return ⟨c, A, b, Aeq, beq, lb, ub, is_maximization⟩

/-- The record loop of `read_problems_from_file`: parses every record in
order, stopping at the first failure. -/
def parse_records : List Json → Except LoadErr (List LP_Problem)
  | [] => .ok []
  | r :: rs => do
      let p ← parse_record r
      let ps ← parse_records rs
      return p :: ps

/-- What opening and reading the input file yields: `malformed` when the
stream's content is not well-formed structured data, `parsed j` when it
parses to the value `j`. -/
inductive FileContent where
  | malformed
  | parsed (j : Json)

/-- Function `read_problems_from_file` of `main.cc` over an abstract input store
(`inputs path = none` models a file that cannot be opened): throws on an
unopenable file, on malformed content (the stream extraction `file >> j`),
or on a record failure; otherwise returns the problems in input order.  The
requirement that the top level be a sequence of records is modelled from the
spec (§6, input file format). -/
def read_problems_from_file (inputs : String → Option FileContent)
    (filename : String) : Except LoadErr (List LP_Problem) :=
  match inputs filename with
  | none => .error (.ioError ("无法打开文件: " ++ filename))
  | some .malformed => .error (.parseError "parse error: malformed input")
  | some (.parsed j) =>
      match j with
      | .arr records => parse_records records
      | _ => .error (.parseError "parse error: input is not a sequence of records")

/-- Outcome of the argument loop of `main` (lines 204-222): print usage and
return 0 (`--help`), print the unknown-argument message plus usage and
return 1, die on an uncaught `std::stoi` exception, or fall through to the
solving phase with the accumulated configuration. -/
inductive ParseResult where
  | helpExit (output : String)
  | unknownExit (output : String)
  | stoiThrow
  | config (parallel_mode : Bool) (thread_count : Int) (filename : String)
deriving Repr

/-- The argument loop of `main`, carrying the mutable locals
`parallel_mode`, `thread_count`, `filename`.  The C++ short-circuit
condition `arg == "--threads" && i+1 < argc` is rendered as a string test
followed by a match on the remaining arguments: `--threads` and `--file`
consume the next argument only when one exists; with none left they reach
the unknown-argument branch, exactly as the failed `&&` does in the source.
The `std::stoi` call sits outside the `try` block, so a conversion failure
escapes `main`. -/
def parse_args_loop : List String → Bool → Int → String → ParseResult
  | [], parallel_mode, thread_count, filename =>
      .config parallel_mode thread_count filename
  | arg :: rest, parallel_mode, thread_count, filename =>
      if arg = "--parallel" then
        parse_args_loop rest true thread_count filename
      else if arg = "--serial" then
        parse_args_loop rest false thread_count filename
      else if arg = "--threads" then
        match rest with
        | v :: rest2 =>
            match stoi v with
            | .ok n => parse_args_loop rest2 parallel_mode n filename
            | .invalid => .stoiThrow
            | .out_of_range => .stoiThrow
        | [] => .unknownExit ("未知参数: " ++ arg ++ "\n" ++ help_text)
      else if arg = "--file" then
        match rest with
        | v :: rest2 => parse_args_loop rest2 parallel_mode thread_count v
        | [] => .unknownExit ("未知参数: " ++ arg ++ "\n" ++ help_text)
      else if arg = "--help" then
        .helpExit help_text
      else
        .unknownExit ("未知参数: " ++ arg ++ "\n" ++ help_text)

/-- Argument parsing with `main`'s default values: parallel mode, 4
threads, input file `problems.json`. -/
def parse_args (args : List String) : ParseResult :=
  parse_args_loop args true 4 "problems.json"

/-- Outcome of a whole process run: `exit code output fs` for a normal
return from `main`, `aborted` for an `assert` failure, `uncaught` for an
exception escaping `main` (the `std::stoi` throw in the argument loop). -/
inductive MainResult where
  | exit (code : Int) (output : String) (fs : OutputFS)
  | aborted (fs : OutputFS)
  | uncaught (fs : OutputFS)

/-- Function `main` of `main.cc`: parse arguments (outside the `try` block), then
read the problems, dispatch to the selected backend variant, and print the
statistics; any Loader exception is caught, printed with the `错误: `
banner and turned into exit status 1. -/
def runMain (solve_batch : List LP_Problem → List LP_solution)
    (solve : LP_Problem → LP_solution) (wall_ms : ℚ) (args : List String)
    (inputs : String → Option FileContent) (fs : OutputFS) : MainResult :=
  match parse_args args with
  | .helpExit output => .exit 0 output fs
  | .unknownExit output => .exit 1 output fs
  | .stoiThrow => .uncaught fs
  | .config parallel_mode thread_count filename =>
      match read_problems_from_file inputs filename with
      | .error e => .exit 1 ("错误: " ++ e.describe) fs
      | .ok problems =>
          if parallel_mode then
            match solve_parallel solve_batch wall_ms problems fs with
            | .assert_failed => .aborted fs
            | .ok statsFs =>
                .exit 0 (print_statistics statsFs.1 parallel_mode thread_count) statsFs.2
          else
            match solve_serial solve wall_ms problems fs with
            | .assert_failed => .aborted fs
            | .ok statsFs =>
                .exit 0 (print_statistics statsFs.1 parallel_mode thread_count) statsFs.2

/-- Observer: whether a Loader outcome is a parse failure. -/
def is_parse_failure : Except LoadErr (List LP_Problem) → Bool
  | .error (.parseError _) => true
  | _ => false

/-- Observer: the exit status of a completed process run (`none` when the
process did not return from `main` normally). -/
def MainResult.exitCode : MainResult → Option Int
  | .exit code _ _ => some code
  | _ => none

/-- Observer: the file system a process run leaves behind. -/
def MainResult.fsOf : MainResult → OutputFS
  | .exit _ _ fs => fs
  | .aborted fs => fs
  | .uncaught fs => fs

/-! ### Witness fixtures: a tiny concrete batch, backend and file system -/

/-- A one-variable feasible problem, used as a concrete fixture. -/
def wprob : LP_Problem := ⟨[1], [[1]], [1], [], [], [], [], false⟩

/-- A two-problem batch fixture. -/
def wprobs : List LP_Problem := [wprob, wprob]

/-- A successful solution fixture (`exitflag == 1`). -/
def wsol_ok : LP_solution := ⟨1, 5, 7, "BLOCK-OK\n"⟩

/-- A failed solution fixture (`exitflag == -2`). -/
def wsol_bad : LP_solution := ⟨-2, 3, 2, "BLOCK-BAD\n"⟩

/-- A concrete concurrent backend: one success and one failure per batch. -/
def wsb : List LP_Problem → List LP_solution := fun _ => [wsol_ok, wsol_bad]

/-- A concrete sequential backend: every problem succeeds. -/
def wsv : LP_Problem → LP_solution := fun _ => wsol_ok

/-- An empty, fully openable file system fixture. -/
def wfs : OutputFS := ⟨fun _ => "", fun _ => true⟩

/-- A file system fixture on which no path can be opened. -/
def wfs_closed : OutputFS := ⟨fun _ => "", fun _ => false⟩

/-- An input store fixture holding no file at all. -/
def winputs_empty : String → Option FileContent := fun _ => none

/-- A record fixture lacking the mandatory `c` field. -/
def wrec_no_c : Json := .obj [("A", .arr [.arr [.num 1]]), ("b", .arr [.num 1])]

/-- An input store fixture whose `problems.json` has a record without `c`. -/
def winputs_no_c : String → Option FileContent :=
  fun fn => if fn = "problems.json" then some (.parsed (.arr [wrec_no_c])) else none

/-- The statistics record a dispatch over `wprobs` starts from. -/
def wstats0 : SolverStatistics := { total_problems := wprobs.length, wall_clock_time_ms := 0 }

/-- The statistics the parallel fixture run produces. -/
def wstatsP : SolverStatistics := (process_results wstats0 (wsb wprobs)).1

/-- The file system the parallel fixture run produces. -/
def wfsP : OutputFS :=
  wfs.append_to "answer_parallel.txt" (process_results wstats0 (wsb wprobs)).2

/-- The statistics the serial fixture run produces. -/
def wstatsS : SolverStatistics := (process_results wstats0 (wprobs.map wsv)).1

/-- The file system the serial fixture run produces. -/
def wfsS : OutputFS :=
  wfs.append_to "answer_serial.txt" (process_results wstats0 (wprobs.map wsv)).2

/-- The file system a second parallel fixture run (starting from `wfsP`)
produces. -/
def wfsP2 : OutputFS :=
  wfsP.append_to "answer_parallel.txt" (process_results wstats0 (wsb wprobs)).2

/-! ### Helper lemmas about the aggregation loop -/

theorem process_result_total_problems (stats : SolverStatistics) (r : LP_solution) :
    (process_result stats r).1.total_problems = stats.total_problems := by
  unfold process_result
  by_cases h : r.exitflag = 1 <;> simp [h]

theorem process_result_wall (stats : SolverStatistics) (r : LP_solution) :
    (process_result stats r).1.wall_clock_time_ms = stats.wall_clock_time_ms := by
  unfold process_result
  by_cases h : r.exitflag = 1 <;> simp [h]

theorem process_result_counts (stats : SolverStatistics) (r : LP_solution) :
    (process_result stats r).1.success_count
        = stats.success_count + (if r.exitflag == 1 then 1 else 0)
    ∧ (process_result stats r).1.fail_count
        = stats.fail_count + (if r.exitflag == 1 then 0 else 1) := by
  unfold process_result
  by_cases h : r.exitflag = 1 <;> simp [h]

theorem process_result_sums (stats : SolverStatistics) (r : LP_solution) :
    (process_result stats r).1.total_iterations
        = stats.total_iterations + r.iterations
    ∧ (process_result stats r).1.total_solve_time_ms
        = stats.total_solve_time_ms + r.total_time_ms := by
  unfold process_result
  by_cases h : r.exitflag = 1 <;> simp [h]

theorem process_result_write (stats : SolverStatistics) (r : LP_solution) :
    (process_result stats r).2
        = (if r.exitflag == 1 then r.get_data_string else "") := by
  unfold process_result
  by_cases h : r.exitflag = 1 <;> simp [h]

theorem string_join_cons (s : String) (l : List String) :
    String.join (s :: l) = s ++ String.join l := by
  simp [String.join_eq, String.ext_iff]

theorem process_results_total_problems (rs : List LP_solution) :
    ∀ stats : SolverStatistics,
      (process_results stats rs).1.total_problems = stats.total_problems := by
  induction rs with
  | nil => intro stats; rfl
  | cons r rs ih =>
      intro stats
      simp only [process_results]
      rw [ih, process_result_total_problems]

theorem process_results_wall (rs : List LP_solution) :
    ∀ stats : SolverStatistics,
      (process_results stats rs).1.wall_clock_time_ms = stats.wall_clock_time_ms := by
  induction rs with
  | nil => intro stats; rfl
  | cons r rs ih =>
      intro stats
      simp only [process_results]
      rw [ih, process_result_wall]

theorem process_results_success (rs : List LP_solution) :
    ∀ stats : SolverStatistics,
      (process_results stats rs).1.success_count
        = stats.success_count + (rs.filter (fun r => r.exitflag == 1)).length := by
  induction rs with
  | nil => intro stats; simp [process_results]
  | cons r rs ih =>
      intro stats
      simp only [process_results]
      rw [ih, (process_result_counts stats r).1, List.filter_cons]
      by_cases h : r.exitflag = 1 <;> simp [beq_iff_eq, h]
      omega

theorem process_results_fail (rs : List LP_solution) :
    ∀ stats : SolverStatistics,
      (process_results stats rs).1.fail_count
        = stats.fail_count + (rs.filter (fun r => !(r.exitflag == 1))).length := by
  induction rs with
  | nil => intro stats; simp [process_results]
  | cons r rs ih =>
      intro stats
      simp only [process_results]
      rw [ih, (process_result_counts stats r).2, List.filter_cons]
      by_cases h : r.exitflag = 1 <;> simp [beq_iff_eq, h]
      omega

theorem process_results_iterations (rs : List LP_solution) :
    ∀ stats : SolverStatistics,
      (process_results stats rs).1.total_iterations
        = stats.total_iterations + (rs.map LP_solution.iterations).sum := by
  induction rs with
  | nil => intro stats; simp [process_results]
  | cons r rs ih =>
      intro stats
      simp only [process_results]
      rw [ih, (process_result_sums stats r).1]
      simp [add_assoc]

theorem process_results_time (rs : List LP_solution) :
    ∀ stats : SolverStatistics,
      (process_results stats rs).1.total_solve_time_ms
        = stats.total_solve_time_ms + (rs.map LP_solution.total_time_ms).sum := by
  induction rs with
  | nil => intro stats; simp [process_results]
  | cons r rs ih =>
      intro stats
      simp only [process_results]
      rw [ih, (process_result_sums stats r).2]
      simp [add_assoc]

theorem process_results_write (rs : List LP_solution) :
    ∀ stats : SolverStatistics,
      (process_results stats rs).2 = success_blocks rs := by
  induction rs with
  | nil =>
      intro stats
      simp only [process_results, success_blocks, List.filter_nil, List.map_nil]
      rfl
  | cons r rs ih =>
      intro stats
      simp only [process_results]
      rw [process_result_write, ih]
      by_cases h : r.exitflag = 1 <;>
        simp [beq_iff_eq, h, success_blocks, List.filter_cons, string_join_cons]

theorem length_filter_succ_fail (rs : List LP_solution) :
    (rs.filter (fun r => r.exitflag == 1)).length
      + (rs.filter (fun r => !(r.exitflag == 1))).length = rs.length := by
  induction rs with
  | nil => rfl
  | cons r rs ih =>
      rw [List.filter_cons, List.filter_cons]
      by_cases h : r.exitflag = 1 <;> simp [beq_iff_eq, h] <;> omega

/-! ### Inversion lemmas for the two dispatch paths -/

theorem solve_parallel_ok (sb : List LP_Problem → List LP_solution) (w : ℚ)
    (ps : List LP_Problem) (fs : OutputFS) (stats : SolverStatistics) (fs' : OutputFS)
    (h : solve_parallel sb w ps fs = .ok (stats, fs')) :
    stats = (process_results { total_problems := ps.length, wall_clock_time_ms := w }
              (sb ps)).1
    ∧ fs' = fs.append_to "answer_parallel.txt"
        (process_results { total_problems := ps.length, wall_clock_time_ms := w }
          (sb ps)).2 := by
  simp only [solve_parallel] at h
  split at h
  · simp only [RunResult.ok.injEq, Prod.mk.injEq] at h
    exact ⟨h.1.symm, h.2.symm⟩
  · exact absurd h (by simp)

theorem solve_serial_ok (sv : LP_Problem → LP_solution) (w : ℚ)
    (ps : List LP_Problem) (fs : OutputFS) (stats : SolverStatistics) (fs' : OutputFS)
    (h : solve_serial sv w ps fs = .ok (stats, fs')) :
    stats = (process_results { total_problems := ps.length, wall_clock_time_ms := w }
              (ps.map sv)).1
    ∧ fs' = fs.append_to "answer_serial.txt"
        (process_results { total_problems := ps.length, wall_clock_time_ms := w }
          (ps.map sv)).2 := by
  simp only [solve_serial] at h
  split at h
  · simp only [RunResult.ok.injEq, Prod.mk.injEq] at h
    exact ⟨h.1.symm, h.2.symm⟩
  · exact absurd h (by simp)

theorem append_to_same (fs : OutputFS) (path s : String) :
    (fs.append_to path s).content path = fs.content path ++ s := by
  simp [OutputFS.append_to]

theorem append_to_other (fs : OutputFS) (path s p : String) (h : p ≠ path) :
    (fs.append_to path s).content p = fs.content p := by
  simp [OutputFS.append_to, h]

/-! ### Claim theorems -/

/-- C1: For every batch run in which the solving backend returns exactly one
LP Solution per input problem, the final Solver Statistics satisfy
`success_count + fail_count == total_problems`, in both the parallel path
(where the returned-count hypothesis is `hlen`) and the serial path (which
calls the backend once per problem, so its result count always matches). -/
theorem C1_success_plus_fail_eq_total
    (sb : List LP_Problem → List LP_solution) (sv : LP_Problem → LP_solution)
    (w1 w2 : ℚ) (ps : List LP_Problem) (fs1 fs2 : OutputFS)
    (statsP statsS : SolverStatistics) (fsP fsS : OutputFS)
    (hlen : (sb ps).length = ps.length)
    (hP : solve_parallel sb w1 ps fs1 = .ok (statsP, fsP))
    (hS : solve_serial sv w2 ps fs2 = .ok (statsS, fsS)) :
    statsP.success_count + statsP.fail_count = statsP.total_problems
    ∧ statsS.success_count + statsS.fail_count = statsS.total_problems := by
  obtain ⟨hstP, -⟩ := solve_parallel_ok sb w1 ps fs1 statsP fsP hP
  obtain ⟨hstS, -⟩ := solve_serial_ok sv w2 ps fs2 statsS fsS hS
  subst hstP hstS
  constructor
  · rw [process_results_success, process_results_fail, process_results_total_problems]
    have hc := length_filter_succ_fail (sb ps)
    simp only
    omega
  · rw [process_results_success, process_results_fail, process_results_total_problems]
    have hc' := length_filter_succ_fail (ps.map sv)
    have hm : (ps.map sv).length = ps.length := List.length_map ps sv
    simp only
    omega

/-- Witness for C1 at the concrete two-problem fixture. -/
theorem C1_witness :
    wstatsP.success_count + wstatsP.fail_count = wstatsP.total_problems
    ∧ wstatsS.success_count + wstatsS.fail_count = wstatsS.total_problems :=
  C1_success_plus_fail_eq_total wsb wsv 0 0 wprobs wfs wfs wstatsP wstatsS wfsP wfsS
    rfl rfl rfl

/-- C2: For every sequence of LP Solutions, the aggregation loop increments
`success_count` exactly for solutions with `exitflag == 1` and `fail_count`
for all other exit flags, while adding every solution's `iterations` and
`total_time_ms` to the running totals unconditionally, failed solutions
included. -/
theorem C2_aggregation_counters_and_sums
    (stats : SolverStatistics) (rs : List LP_solution) :
    (process_results stats rs).1.success_count
        = stats.success_count + (rs.filter (fun r => r.exitflag == 1)).length
    ∧ (process_results stats rs).1.fail_count
        = stats.fail_count + (rs.filter (fun r => !(r.exitflag == 1))).length
    ∧ (process_results stats rs).1.total_iterations
        = stats.total_iterations + (rs.map LP_solution.iterations).sum
    ∧ (process_results stats rs).1.total_solve_time_ms
        = stats.total_solve_time_ms + (rs.map LP_solution.total_time_ms).sum :=
  ⟨process_results_success rs stats, process_results_fail rs stats,
   process_results_iterations rs stats, process_results_time rs stats⟩

/-- C8: For every batch run, `total_problems` equals the number of input
problems, captured before the backend is dispatched; since the backend
functions `sb`, `sv` are arbitrary here, the value is independent of how many
solutions the backend actually returns. -/
theorem C8_total_problems_from_input_count
    (sb : List LP_Problem → List LP_solution) (sv : LP_Problem → LP_solution)
    (w1 w2 : ℚ) (ps : List LP_Problem) (fs1 fs2 : OutputFS)
    (statsP statsS : SolverStatistics) (fsP fsS : OutputFS)
    (hP : solve_parallel sb w1 ps fs1 = .ok (statsP, fsP))
    (hS : solve_serial sv w2 ps fs2 = .ok (statsS, fsS)) :
    statsP.total_problems = ps.length ∧ statsS.total_problems = ps.length := by
  obtain ⟨hstP, -⟩ := solve_parallel_ok sb w1 ps fs1 statsP fsP hP
  obtain ⟨hstS, -⟩ := solve_serial_ok sv w2 ps fs2 statsS fsS hS
  subst hstP hstS
  rw [process_results_total_problems, process_results_total_problems]
  exact ⟨rfl, rfl⟩

/-- Witness for C8: the two-problem fixture yields `total_problems = 2` on
both paths. -/
theorem C8_witness :
    wstatsP.total_problems = wprobs.length ∧ wstatsS.total_problems = wprobs.length :=
  C8_total_problems_from_input_count wsb wsv 0 0 wprobs wfs wfs wstatsP wstatsS wfsP wfsS
    rfl rfl

/-- C7: Whenever the output artifact cannot be opened for appending, the run
fails through the process-terminating assertion (`RunResult.assert_failed`):
no statistics are produced and the batch is not continued. -/
theorem C7_unopenable_artifact_asserts
    (sb : List LP_Problem → List LP_solution) (sv : LP_Problem → LP_solution)
    (w1 w2 : ℚ) (ps : List LP_Problem) (fs : OutputFS)
    (hpar : fs.openable "answer_parallel.txt" = false)
    (hser : fs.openable "answer_serial.txt" = false) :
    solve_parallel sb w1 ps fs = .assert_failed
    ∧ solve_serial sv w2 ps fs = .assert_failed := by
  constructor
  · simp [solve_parallel, hpar]
  · simp [solve_serial, hser]

/-- Witness for C7 on the fully unopenable file system fixture. -/
theorem C7_witness :
    solve_parallel wsb 0 wprobs wfs_closed = .assert_failed
    ∧ solve_serial wsv 0 wprobs wfs_closed = .assert_failed :=
  C7_unopenable_artifact_asserts wsb wsv 0 0 wprobs wfs_closed rfl rfl

/-- C3: A serialized block is appended to the variant-specific artifact
(`answer_parallel.txt` for the concurrent path, `answer_serial.txt` for the
sequential path) exactly for the solutions with `exitflag == 1`
(`success_blocks`), content already present is preserved as a prefix, other
paths are untouched, and a second run on the same input appends a second copy
of the blocks rather than overwriting. -/
theorem C3_append_only_persistence
    (sb : List LP_Problem → List LP_solution) (sv : LP_Problem → LP_solution)
    (w1 w2 w3 : ℚ) (ps : List LP_Problem) (fs : OutputFS)
    (statsP statsS statsP2 : SolverStatistics) (fsP fsS fsP2 : OutputFS)
    (hP : solve_parallel sb w1 ps fs = .ok (statsP, fsP))
    (hS : solve_serial sv w2 ps fs = .ok (statsS, fsS))
    (hP2 : solve_parallel sb w3 ps fsP = .ok (statsP2, fsP2)) :
    fsP.content "answer_parallel.txt"
        = fs.content "answer_parallel.txt" ++ success_blocks (sb ps)
    ∧ (∀ p, p ≠ "answer_parallel.txt" → fsP.content p = fs.content p)
    ∧ fsS.content "answer_serial.txt"
        = fs.content "answer_serial.txt" ++ success_blocks (ps.map sv)
    ∧ (∀ p, p ≠ "answer_serial.txt" → fsS.content p = fs.content p)
    ∧ fsP2.content "answer_parallel.txt"
        = fs.content "answer_parallel.txt" ++ success_blocks (sb ps)
            ++ success_blocks (sb ps) := by
  obtain ⟨-, hfsP⟩ := solve_parallel_ok sb w1 ps fs statsP fsP hP
  obtain ⟨-, hfsS⟩ := solve_serial_ok sv w2 ps fs statsS fsS hS
  obtain ⟨-, hfsP2⟩ := solve_parallel_ok sb w3 ps fsP statsP2 fsP2 hP2
  subst hfsP hfsS hfsP2
  refine ⟨?_, ?_, ?_, ?_, ?_⟩
  · rw [append_to_same, process_results_write]
  · intro p hp
    rw [append_to_other _ _ _ _ hp]
  · rw [append_to_same, process_results_write]
  · intro p hp
    rw [append_to_other _ _ _ _ hp]
  · rw [append_to_same, process_results_write, append_to_same, process_results_write]

/-- Witness for C3: one success block lands in `answer_parallel.txt`, other
paths stay empty, and the second run doubles the block. -/
theorem C3_witness :
    wfsP.content "answer_parallel.txt"
        = wfs.content "answer_parallel.txt" ++ success_blocks (wsb wprobs)
    ∧ wfsP.content "other.txt" = wfs.content "other.txt"
    ∧ wfsP2.content "answer_parallel.txt"
        = wfs.content "answer_parallel.txt" ++ success_blocks (wsb wprobs)
            ++ success_blocks (wsb wprobs) :=
  have h := C3_append_only_persistence wsb wsv 0 0 0 wprobs wfs
    wstatsP wstatsS wstatsP wfsP wfsS wfsP2 rfl rfl rfl
  ⟨h.1, h.2.1 "other.txt" (by decide), h.2.2.2.2⟩

theorem fdiv_by_zero_not_finite (a : ℚ) :
    (fdiv (.finite a) (.finite 0)).isFinite = false := by
  simp only [fdiv, if_pos rfl]
  by_cases h0 : a = 0
  · simp [h0, FVal.isFinite]
  · by_cases hp : a > 0 <;> simp [h0, hp, FVal.isFinite]

theorem append_length_ne_zero (a b : String) (h : a.length ≠ 0) :
    (a ++ b).length ≠ 0 := by
  rw [String.length_append]
  omega

/-- C5: For an empty batch (`total_problems = 0`), the report still renders
(`print_statistics` is total and produces non-empty text in both modes); the
average-time division `wall_clock_time_ms / total_problems` yields a
non-finite value rather than trapping, and so does the parallel speedup
division when `wall_clock_time_ms = 0`. -/
theorem C5_empty_batch_report_total
    (stats : SolverStatistics) (tc : Int)
    (h : stats.total_problems = 0) :
    (avg_time_per_problem stats).isFinite = false
    ∧ (print_statistics stats true tc).length ≠ 0
    ∧ (print_statistics stats false tc).length ≠ 0
    ∧ (stats.wall_clock_time_ms = 0 → (speedup_ratio stats).isFinite = false) := by
  refine ⟨?_, ?_, ?_, ?_⟩
  · rw [avg_time_per_problem, h, Nat.cast_zero]
    exact fdiv_by_zero_not_finite _
  · unfold print_statistics
    exact append_length_ne_zero _ _ (by decide)
  · unfold print_statistics
    exact append_length_ne_zero _ _ (by decide)
  · intro hw
    rw [speedup_ratio, hw]
    exact fdiv_by_zero_not_finite _

/-- Witness for C5 at the all-zero statistics record. -/
theorem C5_witness :
    (avg_time_per_problem {}).isFinite = false
    ∧ (print_statistics {} true 4).length ≠ 0
    ∧ (print_statistics {} false 4).length ≠ 0
    ∧ (speedup_ratio {}).isFinite = false :=
  have h := C5_empty_batch_report_total {} 4 rfl
  ⟨h.1, h.2.1, h.2.2.1, h.2.2.2 rfl⟩

/-- C6: For an input file path that cannot be opened, `main` prints the
I/O-error message and returns 1, the file system is returned unchanged (no
artifact is opened or appended to), and the outcome does not depend on the
backends, which are never invoked. -/
theorem C6_unopenable_input_exits_nonzero
    (sb : List LP_Problem → List LP_solution) (sv : LP_Problem → LP_solution)
    (w : ℚ) (args : List String) (inputs : String → Option FileContent)
    (fs : OutputFS) (pm : Bool) (tc : Int) (fn : String)
    (hargs : parse_args args = .config pm tc fn)
    (hio : inputs fn = none) :
    runMain sb sv w args inputs fs
        = .exit 1 ("错误: " ++ ("无法打开文件: " ++ fn)) fs
    ∧ ∀ sb' sv', runMain sb' sv' w args inputs fs = runMain sb sv w args inputs fs := by
  have hload : read_problems_from_file inputs fn
      = .error (.ioError ("无法打开文件: " ++ fn)) := by
    simp [read_problems_from_file, hio]
  constructor
  · simp [runMain, hargs, hload, LoadErr.describe]
  · intro sb' sv'
    simp [runMain, hargs, hload]

/-- Witness for C6 on an input store with no files at all. -/
theorem C6_witness :
    runMain wsb wsv 0 [] winputs_empty wfs
        = .exit 1 ("错误: " ++ ("无法打开文件: " ++ "problems.json")) wfs
    ∧ runMain (fun _ => []) (fun _ => wsol_bad) 0 [] winputs_empty wfs
        = runMain wsb wsv 0 [] winputs_empty wfs :=
  have h := C6_unopenable_input_exits_nonzero wsb wsv 0 [] winputs_empty wfs
    true 4 "problems.json" rfl rfl
  ⟨h.1, h.2 (fun _ => []) (fun _ => wsol_bad)⟩

theorem bind_error_cases {α β : Type} (x : Except LoadErr α)
    (f : α → Except LoadErr β) (e : LoadErr) (h : x >>= f = .error e) :
    x = .error e ∨ ∃ v, x = .ok v ∧ f v = .error e := by
  cases x with
  | error e' =>
      left
      have h' : (Except.error e' : Except LoadErr β) = .error e := h
      injection h' with h''
      rw [h'']
  | ok v =>
      right
      exact ⟨v, rfl, h⟩

theorem get_mandatory_num_list_error (r : Json) (key : String) (e : LoadErr)
    (h : get_mandatory_num_list r key = .error e) : ∃ msg, e = .parseError msg := by
  unfold get_mandatory_num_list at h
  split at h
  · injection h with h
    exact ⟨_, h.symm⟩
  · split at h
    · injection h with h
      exact ⟨_, h.symm⟩
    · cases h

theorem get_mandatory_matrix_error (r : Json) (key : String) (e : LoadErr)
    (h : get_mandatory_matrix r key = .error e) : ∃ msg, e = .parseError msg := by
  unfold get_mandatory_matrix at h
  split at h
  · injection h with h
    exact ⟨_, h.symm⟩
  · split at h
    · injection h with h
      exact ⟨_, h.symm⟩
    · cases h

theorem get_optional_num_list_error (r : Json) (key : String) (e : LoadErr)
    (h : get_optional_num_list r key = .error e) : ∃ msg, e = .parseError msg := by
  unfold get_optional_num_list at h
  split at h
  · cases h
  · split at h
    · injection h with h
      exact ⟨_, h.symm⟩
    · cases h

theorem get_optional_matrix_error (r : Json) (key : String) (e : LoadErr)
    (h : get_optional_matrix r key = .error e) : ∃ msg, e = .parseError msg := by
  unfold get_optional_matrix at h
  split at h
  · cases h
  · split at h
    · injection h with h
      exact ⟨_, h.symm⟩
    · cases h

theorem get_optional_bool_error (r : Json) (key : String) (e : LoadErr)
    (h : get_optional_bool r key = .error e) : ∃ msg, e = .parseError msg := by
  unfold get_optional_bool at h
  split at h
  · cases h
  · split at h
    · injection h with h
      exact ⟨_, h.symm⟩
    · cases h

theorem parse_record_error_is_parse (r : Json) (e : LoadErr)
    (h : parse_record r = .error e) : ∃ msg, e = .parseError msg := by
  unfold parse_record at h
  rcases bind_error_cases _ _ _ h with h1 | ⟨c, -, h⟩
  · exact get_mandatory_num_list_error r "c" e h1
  rcases bind_error_cases _ _ _ h with h1 | ⟨A, -, h⟩
  · exact get_mandatory_matrix_error r "A" e h1
  rcases bind_error_cases _ _ _ h with h1 | ⟨b, -, h⟩
  · exact get_mandatory_num_list_error r "b" e h1
  rcases bind_error_cases _ _ _ h with h1 | ⟨Aeq, -, h⟩
  · exact get_optional_matrix_error r "Aeq" e h1
  rcases bind_error_cases _ _ _ h with h1 | ⟨beq, -, h⟩
  · exact get_optional_num_list_error r "beq" e h1
  rcases bind_error_cases _ _ _ h with h1 | ⟨lb, -, h⟩
  · exact get_optional_num_list_error r "lb" e h1
  rcases bind_error_cases _ _ _ h with h1 | ⟨ub, -, h⟩
  · exact get_optional_num_list_error r "ub" e h1
  rcases bind_error_cases _ _ _ h with h1 | ⟨mx, -, h⟩
  · exact get_optional_bool_error r "ismaximization" e h1
  · cases h

theorem parse_record_missing_field (r : Json)
    (hmiss : r.get "c" = none ∨ r.get "A" = none ∨ r.get "b" = none) :
    ∃ msg, parse_record r = .error (.parseError msg) := by
  rcases hmiss with hc | hA | hb
  · exact ⟨"missing mandatory field: " ++ "c",
      by simp [parse_record, get_mandatory_num_list, hc, bind, Except.bind]⟩
  · cases h1 : get_mandatory_num_list r "c" with
    | error e1 =>
        obtain ⟨m, hm⟩ := get_mandatory_num_list_error r "c" e1 h1
        subst hm
        exact ⟨m, by simp [parse_record, h1, bind, Except.bind]⟩
    | ok c =>
        exact ⟨"missing mandatory field: " ++ "A",
          by
            simp only [parse_record, bind, Except.bind, h1]
            simp [get_mandatory_matrix, hA]⟩
  · cases h1 : get_mandatory_num_list r "c" with
    | error e1 =>
        obtain ⟨m, hm⟩ := get_mandatory_num_list_error r "c" e1 h1
        subst hm
        exact ⟨m, by simp [parse_record, h1, bind, Except.bind]⟩
    | ok c =>
        cases h2 : get_mandatory_matrix r "A" with
        | error e2 =>
            obtain ⟨m, hm⟩ := get_mandatory_matrix_error r "A" e2 h2
            subst hm
            exact ⟨m, by simp [parse_record, h1, h2, bind, Except.bind]⟩
        | ok A =>
            exact ⟨"missing mandatory field: " ++ "b",
              by
                simp only [parse_record, bind, Except.bind, h1, h2]
                simp [get_mandatory_num_list, hb]⟩

theorem parse_records_missing (records : List Json) (r : Json)
    (hr : r ∈ records)
    (hmiss : r.get "c" = none ∨ r.get "A" = none ∨ r.get "b" = none) :
    ∃ msg, parse_records records = .error (.parseError msg) := by
  induction records with
  | nil => cases hr
  | cons r0 rs ih =>
      cases h0 : parse_record r0 with
      | error e0 =>
          obtain ⟨m, hm⟩ := parse_record_error_is_parse r0 e0 h0
          subst hm
          exact ⟨m, by simp [parse_records, h0, bind, Except.bind]⟩
      | ok p =>
          rcases List.mem_cons.mp hr with rfl | hr'
          · obtain ⟨m, hm⟩ := parse_record_missing_field r hmiss
            rw [h0] at hm
            cases hm
          · obtain ⟨m, hm⟩ := ih hr'
            exact ⟨m, by simp [parse_records, h0, hm, bind, Except.bind]⟩

/-- C4: For every batch file in which some record lacks one of the mandatory
fields `c`, `A` or `b`, the Loader fails with a parse error, `main` prints
the error and exits with status 1, the file system is left unchanged, and
the outcome is independent of the backends — no solving occurs. -/
theorem C4_missing_field_parse_error
    (sb : List LP_Problem → List LP_solution) (sv : LP_Problem → LP_solution)
    (w : ℚ) (args : List String) (inputs : String → Option FileContent)
    (fs : OutputFS) (pm : Bool) (tc : Int) (fn : String)
    (records : List Json) (r : Json)
    (hargs : parse_args args = .config pm tc fn)
    (hfile : inputs fn = some (.parsed (.arr records)))
    (hr : r ∈ records)
    (hmiss : r.get "c" = none ∨ r.get "A" = none ∨ r.get "b" = none) :
    is_parse_failure (read_problems_from_file inputs fn) = true
    ∧ (runMain sb sv w args inputs fs).exitCode = some 1
    ∧ (runMain sb sv w args inputs fs).fsOf = fs
    ∧ ∀ sb' sv', runMain sb' sv' w args inputs fs = runMain sb sv w args inputs fs := by
  obtain ⟨m, hm⟩ := parse_records_missing records r hr hmiss
  have hload : read_problems_from_file inputs fn = .error (.parseError m) := by
    simp [read_problems_from_file, hfile, hm]
  refine ⟨?_, ?_, ?_, ?_⟩
  · rw [hload]
    rfl
  · simp [runMain, hargs, hload, MainResult.exitCode]
  · simp [runMain, hargs, hload, MainResult.fsOf]
  · intro sb' sv'
    simp [runMain, hargs, hload]

/-- Witness for C4 on a one-record batch whose record lacks `c`. -/
theorem C4_witness :
    is_parse_failure (read_problems_from_file winputs_no_c "problems.json") = true
    ∧ (runMain wsb wsv 0 [] winputs_no_c wfs).exitCode = some 1
    ∧ (runMain wsb wsv 0 [] winputs_no_c wfs).fsOf = wfs
    ∧ runMain (fun _ => []) (fun _ => wsol_bad) 0 [] winputs_no_c wfs
        = runMain wsb wsv 0 [] winputs_no_c wfs :=
  have h := C4_missing_field_parse_error wsb wsv 0 [] winputs_no_c wfs
    true 4 "problems.json" [wrec_no_c] wrec_no_c rfl rfl
    (List.mem_cons_self wrec_no_c []) (Or.inl rfl)
  ⟨h.1, h.2.1, h.2.2.1, h.2.2.2 (fun _ => []) (fun _ => wsol_bad)⟩

theorem parse_loop_help (rest : List String) (pm : Bool) (tc : Int) (fn : String) :
    parse_args_loop ("--help" :: rest) pm tc fn = .helpExit help_text := by
  cases rest <;> rfl

theorem parse_loop_unknown (x : String) (rest : List String)
    (pm : Bool) (tc : Int) (fn : String)
    (h1 : x ≠ "--parallel") (h2 : x ≠ "--serial") (h3 : x ≠ "--threads")
    (h4 : x ≠ "--file") (h5 : x ≠ "--help") :
    parse_args_loop (x :: rest) pm tc fn
      = .unknownExit ("未知参数: " ++ x ++ "\n" ++ help_text) := by
  cases rest <;> simp [parse_args_loop, h1, h2, h3, h4, h5]

theorem parse_loop_threads_invalid (v : String) (rest : List String)
    (pm : Bool) (tc : Int) (fn : String)
    (hv : stoi v = .invalid ∨ stoi v = .out_of_range) :
    parse_args_loop ("--threads" :: v :: rest) pm tc fn = .stoiThrow := by
  rcases hv with hv | hv <;> simp [parse_args_loop, hv]

/-- C9: The command surface: with no arguments the defaults are parallel
mode, 4 worker threads and input file `problems.json`; an encountered
`--help` prints the usage text and exits with status 0; an encountered
unrecognized flag prints the unknown-argument message plus the usage text
and exits with status 1. -/
theorem C9_command_surface :
    parse_args [] = .config true 4 "problems.json"
    ∧ (∀ rest pm tc fn,
        parse_args_loop ("--help" :: rest) pm tc fn = .helpExit help_text)
    ∧ (∀ x rest pm tc fn, x ≠ "--parallel" → x ≠ "--serial" → x ≠ "--threads" →
        x ≠ "--file" → x ≠ "--help" →
        parse_args_loop (x :: rest) pm tc fn
          = .unknownExit ("未知参数: " ++ x ++ "\n" ++ help_text))
    ∧ (∀ rest sb sv w inputs fs,
        runMain sb sv w ("--help" :: rest) inputs fs = .exit 0 help_text fs)
    ∧ (∀ x rest sb sv w inputs fs, x ≠ "--parallel" → x ≠ "--serial" →
        x ≠ "--threads" → x ≠ "--file" → x ≠ "--help" →
        runMain sb sv w (x :: rest) inputs fs
          = .exit 1 ("未知参数: " ++ x ++ "\n" ++ help_text) fs) := by
  refine ⟨rfl, ?_, ?_, ?_, ?_⟩
  · intro rest pm tc fn
    exact parse_loop_help rest pm tc fn
  · intro x rest pm tc fn h1 h2 h3 h4 h5
    exact parse_loop_unknown x rest pm tc fn h1 h2 h3 h4 h5
  · intro rest sb sv w inputs fs
    simp [runMain, parse_args, parse_loop_help]
  · intro x rest sb sv w inputs fs h1 h2 h3 h4 h5
    simp [runMain, parse_args, parse_loop_unknown x rest true 4 "problems.json" h1 h2 h3 h4 h5]

/-- Witness for C9: `--help` exits 0 with the usage text, an unknown flag
exits 1 with the usage text. -/
theorem C9_witness :
    runMain wsb wsv 0 ["--help"] winputs_empty wfs = .exit 0 help_text wfs
    ∧ runMain wsb wsv 0 ["--bogus"] winputs_empty wfs
        = .exit 1 ("未知参数: " ++ "--bogus" ++ "\n" ++ help_text) wfs :=
  ⟨C9_command_surface.2.2.2.1 [] wsb wsv 0 winputs_empty wfs,
   C9_command_surface.2.2.2.2 "--bogus" [] wsb wsv 0 winputs_empty wfs
     (by decide) (by decide) (by decide) (by decide) (by decide)⟩

/-- C10: When `--threads` is followed by a value `std::stoi` cannot convert,
the conversion throws outside the top-level try/catch: the process
terminates via an uncaught exception (`MainResult.uncaught`) and does not
return through any `exit` path, handled or not. -/
theorem C10_invalid_threads_value_uncaught
    (v : String) (rest : List String) (hv : stoi v = .invalid) :
    (∀ pm tc fn, parse_args_loop ("--threads" :: v :: rest) pm tc fn = .stoiThrow)
    ∧ (∀ sb sv w inputs fs,
        runMain sb sv w ("--threads" :: v :: rest) inputs fs = .uncaught fs)
    ∧ (∀ sb sv w inputs fs code out fs',
        runMain sb sv w ("--threads" :: v :: rest) inputs fs ≠ .exit code out fs') := by
  refine ⟨?_, ?_, ?_⟩
  · intro pm tc fn
    exact parse_loop_threads_invalid v rest pm tc fn (Or.inl hv)
  · intro sb sv w inputs fs
    simp [runMain, parse_args,
      parse_loop_threads_invalid v rest true 4 "problems.json" (Or.inl hv)]
  · intro sb sv w inputs fs code out fs'
    simp [runMain, parse_args,
      parse_loop_threads_invalid v rest true 4 "problems.json" (Or.inl hv)]

/-- Witness for C10 at the unconvertible value `"abc"`. -/
theorem C10_witness :
    parse_args_loop ["--threads", "abc"] true 4 "problems.json" = .stoiThrow
    ∧ runMain wsb wsv 0 ["--threads", "abc"] winputs_empty wfs = .uncaught wfs :=
  have h := C10_invalid_threads_value_uncaught "abc" [] rfl
  ⟨h.1 true 4 "problems.json", h.2.1 wsb wsv 0 winputs_empty wfs⟩

end UnifiedLpSolver
